import Mathlib

/-!
# Verification of the habitat-sim CubeMap render target and MetadataMediator lookups

Shallow embedding of `src/esp/gfx/CubeMap.{h,cpp}` and the lookup helpers of
`src/esp/metadata/MetadataMediator.h`.  GPU objects are modelled by the
state they carry that the code observes (sizes, mip level counts); GL commands
and file I/O are recorded in an event trace.  `CORRADE_ASSERT` /
`CORRADE_INTERNAL_ASSERT` failures are modelled as a fatal outcome carrying the
assertion message (the default Corrade build aborts the process); the state at
the moment of the failed assertion is kept, since some assertions fire after a
member has already been mutated.
-/

namespace esp
namespace gfx

/-- Model of `CubeMap::TextureType` (CubeMap.h): closed enum of texture kinds. -/
inductive TextureType : Type where
  | Color : TextureType
  | Depth : TextureType
deriving DecidableEq, Repr

/-- Model of `CubeMap::Flags` (CubeMap.h): EnumSet of {ColorTexture, DepthTexture,
BuildMipmap}, modelled as one Boolean per flag bit. -/
structure Flags where
  colorTexture : Bool
  depthTexture : Bool
  buildMipmap : Bool
deriving DecidableEq, Repr

/-- A `Magnum::GL::CubeMapTexture` as observed by this code: the number of mip
levels and the square edge length passed to `setStorage`. -/
structure Texture where
  mipLevels : Nat
  size : Int
deriving DecidableEq, Repr

/-- GL / file-system commands issued by the CubeMap code, recorded in order. -/
inductive GfxEvent : Type where
  /-- texture/framebuffer recreation performed by `reset` at the given size -/
  | resetEv (size : Int) : GfxEvent
  /-- `setSubImage` upload of one cube face -/
  | uploadEv (face : Nat) : GfxEvent
  /-- `generateMipmap()` on the texture that was created for the given type -/
  | mipmapEv (t : TextureType) : GfxEvent
  /-- `converter->exportToFile` succeeded for the given filename -/
  | writeFileEv (filename : String) : GfxEvent
  /-- `importer->openFile` + `image2D(0)` for the given filename -/
  | readFileEv (filename : String) : GfxEvent
  /-- `camera.updateOriginalViewingMatrix()` -/
  | snapshotEv : GfxEvent
  /-- `frameBuffer_.bind()` -/
  | bindEv : GfxEvent
  /-- `camera.switchToFace(iFace)` -/
  | switchFaceEv (face : Nat) : GfxEvent
  /-- `camera.draw(group, flags)` for one drawable group while on a face -/
  | drawEv (face : Nat) : GfxEvent
  /-- `camera.restoreTransformation()` -/
  | restoreEv : GfxEvent
deriving DecidableEq, Repr

/-- State of a `CubeMap` object (fields of class CubeMap, CubeMap.h):
`flags_`, `imageSize_` (a C++ `int`, default-initialised to 0), the
`textures_` map keyed by the closed `TextureType` enum (one optional slot per
key), the framebuffer and the fallback depth renderbuffer (modelled by the
viewport size each was last created with; `frameBuffer_` starts as `NoCreate`,
modelled as `none`). -/
structure CubeMapState where
  flags : Flags
  imageSize : Int
  colorTex : Option Texture
  depthTex : Option Texture
  frameBufferSize : Option Int
  depthBufferSize : Option Int
deriving DecidableEq, Repr

/-- Lookup of `textures_[type]`. -/
def CubeMapState.texture (s : CubeMapState) : TextureType → Option Texture
  | TextureType.Color => s.colorTex
  | TextureType.Depth => s.depthTex

/-- Outcome of a CubeMap operation: a normal return value with the resulting
state and the emitted trace, or a fatal assertion failure (message, state at
failure, trace emitted so far). -/
inductive Res (α : Type) : Type where
  | ok (val : α) (st : CubeMapState) (tr : List GfxEvent) : Res α
  | fatal (msg : String) (st : CubeMapState) (tr : List GfxEvent) : Res α
deriving DecidableEq, Repr

/-- Whether an operation died on an assertion. -/
def Res.isFatal {α : Type} : Res α → Bool
  | Res.ok _ _ _ => false
  | Res.fatal _ _ _ => true

/-- The assertion message, if the operation died on an assertion. -/
def Res.fatalMsg {α : Type} : Res α → Option String
  | Res.ok _ _ _ => none
  | Res.fatal m _ _ => some m

/-- The emitted trace of an operation. -/
def Res.trace {α : Type} : Res α → List GfxEvent
  | Res.ok _ _ tr => tr
  | Res.fatal _ _ tr => tr

/-- Model of `CubeMap::recreateTexture()` (CubeMap.cpp): recreates the color texture
(when `Flag::ColorTexture`) with `log2(imageSize_) + 1` mip levels when
`Flag::BuildMipmap` is set and 1 otherwise (`Mn::Math::log2` on a positive
`int` is the floor base-2 logarithm), and the depth texture (when
`Flag::DepthTexture`) always with 1 level. -/
def CubeMapState.recreateTexture (s : CubeMapState) : CubeMapState :=
  let colorLevels : Nat := if s.flags.buildMipmap then Nat.log2 s.imageSize.toNat + 1 else 1
  let s₁ :=
    if s.flags.colorTexture then
      { s with colorTex := some ⟨colorLevels, s.imageSize⟩ }
    else s
  if s₁.flags.depthTexture then
    { s₁ with depthTex := some { mipLevels := 1, size := s₁.imageSize } }
  else s₁

/-- Model of `CubeMap::recreateFramebuffer()` (CubeMap.cpp): rebuilds the framebuffer at
viewport `(imageSize_, imageSize_)` and the fallback 24-bit depth renderbuffer
storage at the same size. -/
def CubeMapState.recreateFramebuffer (s : CubeMapState) : CubeMapState :=
  { s with frameBufferSize := some s.imageSize, depthBufferSize := some s.imageSize }

/-- Model of `CubeMap::attachFramebufferRenderbuffer()` (CubeMap.cpp): attaches the six
color faces (when `Flag::ColorTexture`) and, when `Flag::DepthTexture` is NOT
set, the fallback depth renderbuffer.  Attachment changes no state the model
observes. -/
def CubeMapState.attachFramebufferRenderbuffer (s : CubeMapState) : CubeMapState := s

/-- Model of `CubeMap::reset(int imageSize)` (CubeMap.cpp): early no-op returning
`false` when `imageSize_ == imageSize`; otherwise assigns `imageSize_` FIRST,
then `CORRADE_ASSERT(imageSize_ > 0, ...)` (so a fatal assertion leaves the
illegal size already stored), then recreates textures, framebuffer and
attachments, returning `true`. -/
def CubeMapState.reset (s : CubeMapState) (imageSize : Int) : Res Bool :=
  if s.imageSize = imageSize then
    Res.ok false s []
  else
    let s₁ : CubeMapState := { s with imageSize := imageSize }
    if imageSize > 0 then
      Res.ok true
        s₁.recreateTexture.recreateFramebuffer.attachFramebufferRenderbuffer
        [GfxEvent.resetEv imageSize]
    else
      Res.fatal "CubeMap::reset(): image size is illegal." s₁ []

/-- The member-initialised state of a freshly constructed `CubeMap` object
before the constructor body runs: `imageSize_ = 0`, empty `textures_` map,
`frameBuffer_{NoCreate}`. -/
def initState (flags : Flags) : CubeMapState :=
  { flags := flags, imageSize := 0, colorTex := none, depthTex := none,
    frameBufferSize := none, depthBufferSize := none }

/-- Model of `CubeMap::CubeMap(int imageSize, Flags flags)` (CubeMap.cpp): stores the
flags and delegates to `reset(imageSize)` (the seamless-cube-map renderer
enable changes no CubeMap state). -/
def create (imageSize : Int) (flags : Flags) : Res Bool :=
  (initState flags).reset imageSize

/-- Prepend already-emitted events to the trace of a later result (used to
sequence loop iterations). -/
def Res.prepend {α : Type} (evs : List GfxEvent) : Res α → Res α
  | Res.ok v s tr => Res.ok v s (evs ++ tr)
  | Res.fatal m s tr => Res.fatal m s (evs ++ tr)

/-- Which flag bit `textureTypeSanityCheck` (CubeMap.cpp) tests for each
texture type: `Flag::ColorTexture` for `Color`, `Flag::DepthTexture` for
`Depth`. -/
def flagForType (f : Flags) : TextureType → Bool
  | TextureType.Color => f.colorTexture
  | TextureType.Depth => f.depthTexture

/-- The assertion message of `textureTypeSanityCheck` (CubeMap.cpp), prefixed
by the caller-supplied function name string. -/
def sanityMsg (functionNameStr : String) : TextureType → String
  | TextureType.Color =>
      functionNameStr ++ "instance was not created with color texture output enabled."
  | TextureType.Depth =>
      functionNameStr ++ "instance was not created with depth texture output enabled."

/-- Model of `getTextureTypeFilenameString` (CubeMap.cpp): "rgba" for Color, "depth"
for Depth. -/
def getTextureTypeFilenameString : TextureType → String
  | TextureType.Color => "rgba"
  | TextureType.Depth => "depth"

/-- Model of `coordStrings` (CubeMap.cpp, identical local arrays in `saveTexture` and
`loadTexture`): the fixed face-tag enumeration. -/
def coordStrings : List String := ["+X", "-X", "+Y", "-Y", "+Z", "-Z"]

/-- Access of `coordStrings[iFace]`. -/
def coordString (iFace : Nat) : String := coordStrings.getD iFace ""

/-- The file extension `saveTexture` (CubeMap.cpp) bakes into its format
string: ".png" in the Color case, ".hdr" in the Depth case. -/
def saveExt : TextureType → String
  | TextureType.Color => "png"
  | TextureType.Depth => "hdr"

/-- The filename `saveTexture` (CubeMap.cpp) builds for one face:
`formatString("{}.{}.{}.png" / "{}.{}.{}.hdr", imageFilePrefix,
getTextureTypeFilenameString(type), coordStrings[iFace])`. -/
def saveFilename (type : TextureType) (imageFilePrefix : String) (iFace : Nat) : String :=
  imageFilePrefix ++ "." ++ getTextureTypeFilenameString type ++ "." ++ coordString iFace
    ++ "." ++ saveExt type

/-- The filename `loadTexture` (CubeMap.cpp) builds for one face:
`formatString("{}.{}.{}.{}", imageFilePrefix, getTextureTypeFilenameString(type),
coordStrings[iFace], imageFileExtension)`. -/
def loadFilename (type : TextureType) (imageFilePrefix imageFileExtension : String)
    (iFace : Nat) : String :=
  imageFilePrefix ++ "." ++ getTextureTypeFilenameString type ++ "." ++ coordString iFace
    ++ "." ++ imageFileExtension

/-- Model of `CubeMap::getTexture(TextureType)` (CubeMap.cpp): sanity check, then
`return *textures_[type]`.  When the flag is set but no texture was ever
created (a size-0 construction), the source dereferences a null
`unique_ptr`; the model makes that undefined behavior a distinct fatal
outcome. -/
def CubeMapState.getTexture (s : CubeMapState) (type : TextureType) : Res Texture :=
  if flagForType s.flags type then
    match s.texture type with
    | some t => Res.ok t s []
    | none => Res.fatal "CubeMap::getTexture(): null texture dereference (undefined behavior)" s []
  else
    Res.fatal (sanityMsg "CubeMap::getTexture():" type) s []

/-- External image-converter collaborator of `saveTexture`: whether
`manager.loadAndInstantiate("AnyImageConverter")` succeeds, and whether
`converter->exportToFile(image, filename)` succeeds per filename. -/
structure SaveEnv where
  converterAvailable : Bool
  exportOk : String → Bool

/-- The `for (iFace …)` loop of `saveTexture` (CubeMap.cpp) over the remaining
face indices.  Per face: GL readback of the face image (effect-free in the
model), filename construction, the `CORRADE_ASSERT(!filename.empty(), …)`
guard, then `exportToFile` — on failure the function returns `false`
immediately (earlier faces stay on disk), on success it logs one INFO line
(log output is not modelled) and continues. -/
def saveLoop (env : SaveEnv) (type : TextureType) (imageFilePrefix : String)
    (s : CubeMapState) : List Nat → Res Bool
  | [] => Res.ok true s []
  | iFace :: rest =>
    let filename := saveFilename type imageFilePrefix iFace
    if filename = "" then
      Res.fatal "CubeMap::saveTexture(): Unknown texture type." s []
    else if env.exportOk filename then
      Res.prepend [GfxEvent.writeFileEv filename] (saveLoop env type imageFilePrefix s rest)
    else
      Res.ok false s []

/-- Model of `CubeMap::saveTexture(TextureType, const std::string&)` (CubeMap.cpp):
sanity check (assertion); `return false` when the "AnyImageConverter" plugin
cannot be instantiated; otherwise the per-face export loop.  The per-face
readback `textures_[type]->image(…)` dereferences a null `unique_ptr` when the
texture was never created; the model makes that undefined behavior a distinct
fatal outcome. -/
def CubeMapState.saveTexture (s : CubeMapState) (env : SaveEnv) (type : TextureType)
    (imageFilePrefix : String) : Res Bool :=
  if flagForType s.flags type then
    if env.converterAvailable then
      match s.texture type with
      | some _ => saveLoop env type imageFilePrefix s [0, 1, 2, 3, 4, 5]
      | none =>
          Res.fatal "CubeMap::saveTexture(): null texture dereference (undefined behavior)" s []
    else
      Res.ok false s []
  else
    Res.fatal (sanityMsg "CubeMap::saveTexture():" type) s []

/-- The result of `importer->openFile(f); importer->image2D(0)`: the image's
dimensions (pixel contents do not influence any control flow the model
observes; the depth 3-to-1-channel reduction is a pure data transformation). -/
structure Image where
  width : Int
  height : Int
deriving DecidableEq, Repr

/-- External image-importer collaborator of `loadTexture`: whether
`manager.loadAndInstantiate("AnyImageImporter")` succeeds, and the image
obtained per filename (`none` models a failed `image2D(0)`). -/
structure LoadEnv where
  importerAvailable : Bool
  image : String → Option Image

/-- The `for (iFace …)` loop of `loadTexture` (CubeMap.cpp) over the remaining
face indices, carrying the local `int imageSize` variable (initially 0).  Per
face: open/decode the file (fatal `CORRADE_INTERNAL_ASSERT(imageData)` when
decoding fails), assert the image is square, then on face 0 set the local size
and call `reset` (which recreates the GPU resources when the size differs),
on later faces assert the size matches face 0's, and finally `setSubImage`
the face (the upload goes through the `texture` pointer captured before the
loop — stale after a face-0 `reset` — which the model records only as an
upload event since pixel contents are not modelled). -/
def loadLoop (env : LoadEnv) (type : TextureType) (imageFilePrefix imageFileExtension : String) :
    List Nat → Int → CubeMapState → Res Unit
  | [], _, s => Res.ok () s []
  | iFace :: rest, imageSize, s =>
    let filename := loadFilename type imageFilePrefix imageFileExtension iFace
    match env.image filename with
    | none =>
        Res.fatal "CORRADE_INTERNAL_ASSERT(imageData)" s [GfxEvent.readFileEv filename]
    | some img =>
      if img.width = img.height then
        if iFace = 0 then
          match s.reset img.width with
          | Res.ok _ s' tr =>
              Res.prepend (GfxEvent.readFileEv filename :: tr ++ [GfxEvent.uploadEv iFace])
                (loadLoop env type imageFilePrefix imageFileExtension rest img.width s')
          | Res.fatal m s' tr =>
              Res.fatal m s' (GfxEvent.readFileEv filename :: tr)
        else if img.width = imageSize then
          Res.prepend [GfxEvent.readFileEv filename, GfxEvent.uploadEv iFace]
            (loadLoop env type imageFilePrefix imageFileExtension rest imageSize s)
        else
          Res.fatal " CubeMap::loadTexture(): texture images must have the same size." s
            [GfxEvent.readFileEv filename]
      else
        Res.fatal " CubeMap::loadTexture(): each texture image must be a square." s
          [GfxEvent.readFileEv filename]

/-- Model of `CubeMap::loadTexture(TextureType, const std::string&, const std::string&)`
(CubeMap.cpp): sanity check (assertion); `CORRADE_INTERNAL_ASSERT(importer)` —
a FATAL assertion, not a recoverable failure — when the "AnyImageImporter"
plugin cannot be instantiated; `texture = textures_[type].get()` with
`CORRADE_ASSERT(texture, "Unknown texture type.")`; the per-face load loop;
then, when `Flag::BuildMipmap` and `Flag::ColorTexture` are both set,
`texture->generateMipmap()` — on the pointer captured for the LOADED type
(so a Depth load regenerates the depth texture's mipmap, despite the
adjacent "Color texture ONLY, NOT for depth" comment).  The function returns
`void`. -/
def CubeMapState.loadTexture (s : CubeMapState) (env : LoadEnv) (type : TextureType)
    (imageFilePrefix imageFileExtension : String) : Res Unit :=
  if flagForType s.flags type then
    if env.importerAvailable then
      match s.texture type with
      | none => Res.fatal "CubeMap::loadTexture(): Unknown texture type." s []
      | some _ =>
        match loadLoop env type imageFilePrefix imageFileExtension [0, 1, 2, 3, 4, 5] 0 s with
        | Res.ok v s' tr =>
            if s'.flags.buildMipmap && s'.flags.colorTexture then
              Res.ok v s' (tr ++ [GfxEvent.mipmapEv type])
            else
              Res.ok v s' tr
        | Res.fatal m s' tr => Res.fatal m s' tr
    else
      Res.fatal "CORRADE_INTERNAL_ASSERT(importer)" s []
  else
    Res.fatal (sanityMsg "CubeMap::loadTexture():" type) s []

/-- Modelled from the spec: `esp::gfx::CubeMapCamera` (only declared and
called in the excerpt; its implementation is not under src/).  Per spec §4.2
and §6, the camera exposes: a viewport, attachment to a scene graph, a mutable
local transform, `updateOriginalViewingMatrix` snapshotting the current local
transform as the base orientation, `switchToFace(i)` setting the local
transform to a pure function of the snapshotted base frame and the face index,
and `restoreTransformation` restoring the local transform to the snapshot.
The transform type `T` and the per-face rotation law `faceTransform` are kept
abstract. -/
structure CubeMapCamera (T : Type) where
  localTransform : T
  originalViewing : T
  faceTransform : T → Nat → T
  viewportW : Int
  viewportH : Int
  inSceneGraph : Bool

/-- Modelled from the spec: `CubeMapCamera::updateOriginalViewingMatrix`
captures the camera's current local transform as the base orientation. -/
def CubeMapCamera.updateOriginalViewingMatrix {T : Type} (c : CubeMapCamera T) :
    CubeMapCamera T :=
  { c with originalViewing := c.localTransform }

/-- Modelled from the spec: `CubeMapCamera::switchToFace(i)` overwrites the
camera's local transform with a pure function of the snapshotted base
orientation and the face index. -/
def CubeMapCamera.switchToFace {T : Type} (c : CubeMapCamera T) (iFace : Nat) :
    CubeMapCamera T :=
  { c with localTransform := c.faceTransform c.originalViewing iFace }

/-- Modelled from the spec: `CubeMapCamera::restoreTransformation` restores
the camera's local transform to the snapshotted base orientation (its value
when `updateOriginalViewingMatrix` last ran). -/
def CubeMapCamera.restoreTransformation {T : Type} (c : CubeMapCamera T) :
    CubeMapCamera T :=
  { c with localTransform := c.originalViewing }

/-- External collaborators of `renderToTexture`: whether
`frameBuffer_.checkStatus(Draw) == Complete` holds (checked by
`CORRADE_INTERNAL_ASSERT` in `prepareToDraw`), and how many drawable groups
`sceneGraph.getDrawableGroups()` yields (every group is drawn: the source's
`prepareForDraw(camera) || true` condition is always true). -/
structure RenderEnv where
  framebufferComplete : Bool
  numDrawableGroups : Nat

/-- Result of `renderToTexture`: fatal-assertion message if any, the camera
(mutated through its scene node), the CubeMap state, and the emitted trace. -/
structure RenderResult (T : Type) where
  fatalMsg : Option String
  camera : CubeMapCamera T
  state : CubeMapState
  trace : List GfxEvent

/-- The `for (iFace …)` loop of `renderToTexture` (CubeMap.cpp) over the
remaining face indices: `camera.switchToFace(iFace)`, `prepareToDraw(iFace)`
(mapForDraw, the per-face depth-texture reattachment, the clears, and the
fatal framebuffer-completeness internal assertion), then one draw per drawable
group.  Returns (fatal message if any, camera, trace). -/
def renderFaces {T : Type} (env : RenderEnv) :
    List Nat → CubeMapCamera T → Option String × CubeMapCamera T × List GfxEvent
  | [], c => (none, c, [])
  | iFace :: rest, c =>
    let c₁ := c.switchToFace iFace
    if env.framebufferComplete then
      let evs := GfxEvent.switchFaceEv iFace ::
        List.replicate env.numDrawableGroups (GfxEvent.drawEv iFace)
      let r := renderFaces env rest c₁
      (r.1, r.2.1, evs ++ r.2.2)
    else
      (some "CORRADE_INTERNAL_ASSERT(frameBuffer_.checkStatus(Draw) == Complete)", c₁,
        [GfxEvent.switchFaceEv iFace])

/-- Model of `CubeMap::renderToTexture(CubeMapCamera&, SceneGraph&, Flags)`
(CubeMap.cpp): assert the camera is attached to the scene graph; assert the
camera viewport equals `(imageSize_, imageSize_)`; snapshot the base
orientation via `camera.updateOriginalViewingMatrix()`; bind the framebuffer;
run the six-face loop; `camera.restoreTransformation()`; finally, when
`Flag::BuildMipmap` and `Flag::ColorTexture` are both set,
`textures_[TextureType::Color]->generateMipmap()`. -/
def CubeMapState.renderToTexture {T : Type} (s : CubeMapState) (env : RenderEnv)
    (camera : CubeMapCamera T) : RenderResult T :=
  if camera.inSceneGraph then
    if camera.viewportW = s.imageSize ∧ camera.viewportH = s.imageSize then
      let c₀ := camera.updateOriginalViewingMatrix
      match renderFaces env [0, 1, 2, 3, 4, 5] c₀ with
      | (some m, c', tr) =>
          ⟨some m, c', s, GfxEvent.snapshotEv :: GfxEvent.bindEv :: tr⟩
      | (none, c', tr) =>
          let c'' := c'.restoreTransformation
          let mip : List GfxEvent :=
            if s.flags.buildMipmap && s.flags.colorTexture then
              [GfxEvent.mipmapEv TextureType.Color]
            else []
          ⟨none, c'', s,
            GfxEvent.snapshotEv :: GfxEvent.bindEv :: (tr ++ GfxEvent.restoreEv :: mip)⟩
    else
      ⟨some "CubeMap::renderToTexture(): the image size within the CubeMapCamera is not correct.",
        camera, s, []⟩
  else
    ⟨some "CubeMap::renderToTexture(): camera is NOT attached to the current scene graph.",
      camera, s, []⟩

end gfx

namespace metadata

/-- The slice of `esp::metadata::attributes::SceneDatasetAttributes` the
excerpted MetadataMediator code reads: `getNavmeshMap()` and
`getSemanticSceneDescrMap()`, each a `std::map<std::string, std::string>`
(unique string keys), modelled as association lists looked up by first
match. -/
structure SceneDatasetAttributes where
  navmeshMap : List (String × String)
  semanticSceneDescrMap : List (String × String)

/-- The slice of `MetadataMediator` state these lookups read:
`activeSceneDataset_` and the dataset store behind
`sceneDatasetAttributesManager_->getObjectByHandle`. -/
structure MetadataMediator where
  activeSceneDataset : String
  datasets : List (String × SceneDatasetAttributes)

/-- Model of `MetadataMediator::getActiveDSAttribs()` (MetadataMediator.h): looks the
active dataset name up in the manager; on failure logs an error and returns
`nullptr` (`none`). -/
def MetadataMediator.getActiveDSAttribs (mm : MetadataMediator) :
    Option SceneDatasetAttributes :=
  mm.datasets.lookup mm.activeSceneDataset

/-- Model of `MetadataMediator::getFilePathForHandle(assetHandle, assetMapping,
msgString)` (MetadataMediator.h): when `assetMapping.count(assetHandle) == 0`
(no entry, since `std::map` keys are unique), logs a warning and returns `""`;
otherwise returns `assetMapping.at(assetHandle)`.  Result is the returned
string paired with the emitted log lines. -/
def MetadataMediator.getFilePathForHandle (assetHandle : String)
    (assetMapping : List (String × String)) (msgString : String) : String × List String :=
  match assetMapping.lookup assetHandle with
  | none =>
      ("", [msgString ++ " (getAsset) : Unable to find file path for " ++ assetHandle
        ++ ".  Aborting."])
  | some path => (path, [])

/-- Model of `MetadataMediator::getNavmeshPathByHandle(navMeshHandle)`
(MetadataMediator.h): with no active dataset, logs an error and returns `""`;
otherwise delegates to `getFilePathForHandle` over the dataset's navmesh map.
The mediator state is returned explicitly to mirror that the member function
performs no member write. -/
def MetadataMediator.getNavmeshPathByHandle (mm : MetadataMediator)
    (navMeshHandle : String) : String × List String × MetadataMediator :=
  match mm.getActiveDSAttribs with
  | none =>
      ("", ["MetadataMediator::getNavmeshPathByHandle : No active dataset has been "
        ++ "specified so unable to determine path for " ++ navMeshHandle], mm)
  | some datasetAttr =>
      let r := MetadataMediator.getFilePathForHandle navMeshHandle datasetAttr.navmeshMap
        "MetadataMediator::getNavmeshPathByHandle"
      (r.1, r.2, mm)

/-- Model of `MetadataMediator::getSemanticSceneDescriptorPathByHandle(ssDescrHandle)`
(MetadataMediator.h): with no active dataset, logs an error and returns `""`;
otherwise delegates to `getFilePathForHandle` over the dataset's semantic
scene descriptor map.  The mediator state is returned explicitly to mirror
that the member function performs no member write. -/
def MetadataMediator.getSemanticSceneDescriptorPathByHandle (mm : MetadataMediator)
    (ssDescrHandle : String) : String × List String × MetadataMediator :=
  match mm.getActiveDSAttribs with
  | none =>
      ("", ["MetadataMediator::getSemanticSceneDescriptorPathByHandle : No active "
        ++ "dataset has been specified so unable to determine path for " ++ ssDescrHandle], mm)
  | some datasetAttr =>
      let r := MetadataMediator.getFilePathForHandle ssDescrHandle
        datasetAttr.semanticSceneDescrMap
        "MetadataMediator::getSemanticSceneDescriptorPathByHandle"
      (r.1, r.2, mm)

end metadata

namespace gfx

/-- The CubeMap state carried by an operation's outcome (at normal return, or
as left behind by a failed assertion). -/
def Res.state {α : Type} : Res α → CubeMapState
  | Res.ok _ s _ => s
  | Res.fatal _ s _ => s

/-- Capability set {ColorTexture}: the constructor's default flags. -/
def flagsColor : Flags := ⟨true, false, false⟩

/-- Capability set {ColorTexture, DepthTexture, BuildMipmap}. -/
def flagsAll : Flags := ⟨true, true, true⟩

/-- The state of a CubeMap constructed as `CubeMap(4, flagsAll)`:
size 4, color texture with `log2(4)+1 = 3` mip levels, depth texture with 1
level, framebuffer and fallback depth renderbuffer at size 4. -/
def cmap4 : CubeMapState :=
  ⟨flagsAll, 4, some ⟨3, 4⟩, some ⟨1, 4⟩, some 4, some 4⟩

/-- C1: the claim as stated is false at image size 0: `CubeMap(0, flags)`
delegates to `reset(0)`, which hits the `imageSize_ == imageSize` early
return (a fresh object has `imageSize_ = 0`) and returns `false` WITHOUT
reaching the `imageSize_ > 0` assertion, producing an unusable target with no
textures rather than asserting. -/
theorem C1_counterexample : (create 0 flagsColor).isFatal = false := rfl

/-- C1 (amended): creating a CubeMap with a strictly negative image size
triggers the `CubeMap::reset()` precondition assertion for every capability
set; at image size exactly 0 the constructor's `reset(0)` is the silent no-op
path (the freshly-initialised current size is already 0), so no assertion
fires. -/
theorem C1_create_negative_asserts (sz : Int) (fl : Flags) (h : sz < 0) :
    (create sz fl).isFatal = true ∧ (create 0 fl).isFatal = false := by
  constructor
  · have h0 : ¬ ((0 : Int) = sz) := by omega
    have h1 : ¬ (sz > 0) := by omega
    simp [create, initState, CubeMapState.reset, h0, h1, Res.isFatal]
  · simp [create, initState, CubeMapState.reset, Res.isFatal]

/-- C1 witness: the amended claim at `imageSize = -1` with the default
capability set. -/
theorem C1_witness :
    (-1 : Int) < 0 ∧
    ((create (-1) flagsColor).isFatal = true ∧ (create 0 flagsColor).isFatal = false) :=
  ⟨by decide, C1_create_negative_asserts (-1) flagsColor (by decide)⟩

/-- C2: `reset` with the current size is a no-op returning `false` that
leaves the whole state (flags, image size, textures, framebuffer, fallback
depth buffer) unchanged and issues no GL command, while `reset` with a
different positive size returns `true` (recreating the GPU resources). -/
theorem C2_reset_same_size_noop (s : CubeMapState) (S' : Int)
    (h1 : S' ≠ s.imageSize) (h2 : 0 < S') :
    s.reset s.imageSize = Res.ok false s [] ∧
    s.reset S' = Res.ok true
      ((({ s with imageSize := S' } : CubeMapState).recreateTexture).recreateFramebuffer).attachFramebufferRenderbuffer
      [GfxEvent.resetEv S'] := by
  constructor
  · simp [CubeMapState.reset]
  · have h0 : ¬ (s.imageSize = S') := fun h => h1 h.symm
    simp [CubeMapState.reset, h0, h2]

/-- C2 witness: the claim at the concrete size-4 CubeMap and new size 8. -/
theorem C2_witness :
    (8 : Int) ≠ cmap4.imageSize ∧ 0 < (8 : Int) ∧
    (cmap4.reset cmap4.imageSize = Res.ok false cmap4 [] ∧
     cmap4.reset 8 = Res.ok true
       ((({ cmap4 with imageSize := 8 } : CubeMapState).recreateTexture).recreateFramebuffer).attachFramebufferRenderbuffer
       [GfxEvent.resetEv 8]) :=
  ⟨by decide, by decide, C2_reset_same_size_noop cmap4 8 (by decide) (by decide)⟩

/-- C3: after a size-changing `reset(S)` with `S > 0`, the color texture
(when the ColorTexture capability is set) has exactly `floor(log2 S) + 1` mip
levels when BuildMipmap is set and exactly 1 otherwise, and the depth texture
(when the DepthTexture capability is set) always has exactly 1 level. -/
theorem C3_mip_level_policy (s : CubeMapState) (S : Int)
    (h0 : 0 < S) (hne : S ≠ s.imageSize) :
    ∃ s' : CubeMapState,
      s.reset S = Res.ok true s' [GfxEvent.resetEv S] ∧
      (s.flags.colorTexture = true →
        s'.colorTex = some ⟨if s.flags.buildMipmap then Nat.log2 S.toNat + 1 else 1, S⟩) ∧
      (s.flags.depthTexture = true → s'.depthTex = some ⟨1, S⟩) := by
  have h0' : ¬ (s.imageSize = S) := fun h => hne h.symm
  refine ⟨((({ s with imageSize := S } : CubeMapState).recreateTexture).recreateFramebuffer).attachFramebufferRenderbuffer,
    ?_, ?_, ?_⟩
  · simp [CubeMapState.reset, h0', h0]
  · intro hc
    cases hd : s.flags.depthTexture <;>
      simp [CubeMapState.recreateTexture, CubeMapState.recreateFramebuffer,
        CubeMapState.attachFramebufferRenderbuffer, hc, hd]
  · intro hd
    cases hc : s.flags.colorTexture <;>
      simp [CubeMapState.recreateTexture, CubeMapState.recreateFramebuffer,
        CubeMapState.attachFramebufferRenderbuffer, hc, hd]

/-- C3 witness: the claim at the concrete size-4 CubeMap resized to 8 (color:
`floor(log2 8) + 1 = 4` levels since BuildMipmap is set; depth: 1 level). -/
theorem C3_witness :
    0 < (8 : Int) ∧ (8 : Int) ≠ cmap4.imageSize ∧
    (∃ s' : CubeMapState,
      cmap4.reset 8 = Res.ok true s' [GfxEvent.resetEv 8] ∧
      (cmap4.flags.colorTexture = true →
        s'.colorTex = some ⟨if cmap4.flags.buildMipmap then Nat.log2 (8 : Int).toNat + 1 else 1, 8⟩) ∧
      (cmap4.flags.depthTexture = true → s'.depthTex = some ⟨1, 8⟩)) :=
  ⟨by decide, by decide, C3_mip_level_policy cmap4 8 (by decide) (by decide)⟩

/-- Whether an event is a file read (`importer->openFile` + decode). -/
def GfxEvent.isRead : GfxEvent → Bool
  | GfxEvent.readFileEv _ => true
  | _ => false

/-- A filename built by `saveTexture` is never empty: its extension component
("png" or "hdr") alone is non-empty, so the dead `CORRADE_ASSERT(!filename.empty())`
branch is unreachable. -/
lemma saveFilename_ne_empty (type : TextureType) (pfx : String) (i : Nat) :
    saveFilename type pfx i ≠ "" := by
  intro h
  have h2 := congrArg String.length h
  simp [saveFilename, String.length_append] at h2
  cases type
  · exact (by decide : ¬ ("png" : String).length = 0) h2.2
  · exact (by decide : ¬ ("hdr" : String).length = 0) h2.2

/-- Closed form of the `saveTexture` face loop: it always returns normally,
with value `true` iff every face's export succeeds, and it writes exactly the
files of the faces up to (excluding) the first failing export, in face order. -/
lemma saveLoop_eq (env : SaveEnv) (type : TextureType) (pfx : String) (s : CubeMapState)
    (faces : List Nat) :
    saveLoop env type pfx s faces =
      Res.ok (faces.all fun i => env.exportOk (saveFilename type pfx i)) s
        ((faces.takeWhile fun i => env.exportOk (saveFilename type pfx i)).map
          fun i => GfxEvent.writeFileEv (saveFilename type pfx i)) := by
  induction faces with
  | nil => simp [saveLoop]
  | cons f rest ih =>
    rw [saveLoop, if_neg (saveFilename_ne_empty type pfx f)]
    by_cases hf : env.exportOk (saveFilename type pfx f) = true
    · rw [if_pos hf, ih]
      simp [Res.prepend, hf, List.takeWhile_cons, List.all_cons]
    · rw [if_neg hf]
      simp only [Bool.not_eq_true] at hf
      simp [hf, List.takeWhile_cons, List.all_cons]

/-- Save environment whose converter plugin loads and where every export
succeeds. -/
def saveEnvAll : SaveEnv := ⟨true, fun _ => true⟩

/-- Save environment whose "AnyImageConverter" plugin fails to instantiate. -/
def saveEnvNoConverter : SaveEnv := ⟨false, fun _ => true⟩

/-- Load environment whose importer loads and where every file decodes to an
8×8 image. -/
def loadEnvAll8 : LoadEnv := ⟨true, fun _ => some ⟨8, 8⟩⟩

/-- Load environment whose "AnyImageImporter" plugin fails to instantiate. -/
def loadEnvNoImporter : LoadEnv := ⟨false, fun _ => none⟩

/-- C4: on a fully successful save, `saveTexture(type, prefix)` writes exactly
6 files named `{prefix}.{typeTag}.{faceTag}.{ext}` in the fixed face order
+X, -X, +Y, -Y, +Z, -Z, where `typeTag` is "rgba" for Color and "depth" for
Depth and `ext` is "png" for Color and "hdr" for Depth; and a successful
`loadTexture(type, prefix, ext)` reads 6 files named the same way with the
caller-chosen extension, in the same face order. -/
theorem C4_save_load_filenames (type : TextureType) (pfx ext : String) (s : CubeMapState)
    (env : SaveEnv) (envL : LoadEnv) (t : Texture) (T : Int)
    (hflag : flagForType s.flags type = true) (htex : s.texture type = some t)
    (hconv : env.converterAvailable = true)
    (hexp : ∀ f : String, env.exportOk f = true)
    (himp : envL.importerAvailable = true)
    (himg : ∀ f : String, envL.image f = some ⟨T, T⟩) (hT : 0 < T) :
    (s.saveTexture env type pfx =
      Res.ok true s
        (["+X", "-X", "+Y", "-Y", "+Z", "-Z"].map fun c =>
          GfxEvent.writeFileEv (pfx ++ "." ++ getTextureTypeFilenameString type ++ "." ++ c
            ++ "." ++ saveExt type))) ∧
    getTextureTypeFilenameString TextureType.Color = "rgba" ∧
    getTextureTypeFilenameString TextureType.Depth = "depth" ∧
    saveExt TextureType.Color = "png" ∧
    saveExt TextureType.Depth = "hdr" ∧
    ((s.loadTexture envL type pfx ext).trace.filter GfxEvent.isRead =
      ["+X", "-X", "+Y", "-Y", "+Z", "-Z"].map fun c =>
        GfxEvent.readFileEv (pfx ++ "." ++ getTextureTypeFilenameString type ++ "." ++ c
          ++ "." ++ ext)) := by
  refine ⟨?_, rfl, rfl, rfl, rfl, ?_⟩
  · simp [CubeMapState.saveTexture, hflag, hconv, htex, saveLoop_eq, hexp, saveFilename,
      coordString, coordStrings, List.takeWhile, List.all_cons]
  · by_cases hTe : s.imageSize = T
    · simp [CubeMapState.loadTexture, hflag, himp, htex, loadLoop, himg, loadFilename,
        CubeMapState.reset, hTe, Res.prepend, coordString, coordStrings]
      split <;> simp [Res.trace, GfxEvent.isRead, List.filter]
    · simp [CubeMapState.loadTexture, hflag, himp, htex, loadLoop, himg, loadFilename,
        CubeMapState.reset, hTe, hT, Res.prepend, coordString, coordStrings]
      split <;> simp [Res.trace, GfxEvent.isRead, List.filter]

/-- C4 witness: saving and loading the color texture of the concrete size-4
CubeMap with prefix "test" and load extension "png", under fully successful
codec environments (all loaded faces 8×8). -/
theorem C4_witness :
    (cmap4.saveTexture saveEnvAll TextureType.Color "test" =
      Res.ok true cmap4
        (["+X", "-X", "+Y", "-Y", "+Z", "-Z"].map fun c =>
          GfxEvent.writeFileEv ("test" ++ "." ++ getTextureTypeFilenameString TextureType.Color
            ++ "." ++ c ++ "." ++ saveExt TextureType.Color))) ∧
    ((cmap4.loadTexture loadEnvAll8 TextureType.Color "test" "png").trace.filter GfxEvent.isRead =
      ["+X", "-X", "+Y", "-Y", "+Z", "-Z"].map fun c =>
        GfxEvent.readFileEv ("test" ++ "." ++ getTextureTypeFilenameString TextureType.Color
          ++ "." ++ c ++ "." ++ "png")) :=
  ⟨(C4_save_load_filenames TextureType.Color "test" "png" cmap4 saveEnvAll loadEnvAll8
      ⟨3, 4⟩ 8 (by decide) (by decide) rfl (fun _ => rfl) rfl (fun _ => rfl) (by decide)).1,
   (C4_save_load_filenames TextureType.Color "test" "png" cmap4 saveEnvAll loadEnvAll8
      ⟨3, 4⟩ 8 (by decide) (by decide) rfl (fun _ => rfl) rfl (fun _ => rfl) (by decide)).2.2.2.2.2⟩

/-- C5: the claim as stated is false for `loadTexture`: when the
"AnyImageImporter" plugin cannot be instantiated, `loadTexture` dies on
`CORRADE_INTERNAL_ASSERT(importer)` — a fatal assertion, not a recoverable
return-value/log report (the function's return type is `void`). -/
theorem C5_counterexample :
    cmap4.loadTexture loadEnvNoImporter TextureType.Color "test" "png" =
      Res.fatal "CORRADE_INTERNAL_ASSERT(importer)" cmap4 [] := rfl

/-- C5 (amended): `saveTexture` returns `false` when the converter plugin
cannot be instantiated, and returns `false` when any face's export fails,
leaving exactly the faces before the first failing one exported on disk;
`loadTexture`, however, treats importer-instantiation failure as a FATAL
internal assertion (it terminates rather than reporting recoverably). -/
theorem C5_codec_failures (s : CubeMapState) (type : TextureType) (pfx ext : String)
    (t : Texture)
    (hflag : flagForType s.flags type = true) (htex : s.texture type = some t) :
    (∀ env : SaveEnv, env.converterAvailable = false →
      s.saveTexture env type pfx = Res.ok false s []) ∧
    (∀ env : SaveEnv, env.converterAvailable = true →
      s.saveTexture env type pfx =
        Res.ok ([0, 1, 2, 3, 4, 5].all fun i => env.exportOk (saveFilename type pfx i)) s
          (([0, 1, 2, 3, 4, 5].takeWhile fun i => env.exportOk (saveFilename type pfx i)).map
            fun i => GfxEvent.writeFileEv (saveFilename type pfx i))) ∧
    (∀ env : LoadEnv, env.importerAvailable = false →
      s.loadTexture env type pfx ext = Res.fatal "CORRADE_INTERNAL_ASSERT(importer)" s []) := by
  refine ⟨?_, ?_, ?_⟩
  · intro env h
    simp [CubeMapState.saveTexture, hflag, h]
  · intro env h
    simp [CubeMapState.saveTexture, hflag, h, htex, saveLoop_eq]
  · intro env h
    simp [CubeMapState.loadTexture, hflag, h]

/-- C5 witness: the amended claim at the concrete size-4 CubeMap:
converter-instantiation failure makes `saveTexture` return `false`, and
importer-instantiation failure makes `loadTexture` die on the internal
assertion. -/
theorem C5_witness :
    cmap4.saveTexture saveEnvNoConverter TextureType.Color "p" = Res.ok false cmap4 [] ∧
    cmap4.loadTexture loadEnvNoImporter TextureType.Color "p" "png" =
      Res.fatal "CORRADE_INTERNAL_ASSERT(importer)" cmap4 [] :=
  ⟨(C5_codec_failures cmap4 TextureType.Color "p" "png" ⟨3, 4⟩ (by decide) (by decide)).1
      saveEnvNoConverter rfl,
   (C5_codec_failures cmap4 TextureType.Color "p" "png" ⟨3, 4⟩ (by decide) (by decide)).2.2
      loadEnvNoImporter rfl⟩

/-- Trace of a result with earlier events prepended. -/
lemma Res.trace_prepend {α : Type} (evs : List GfxEvent) (r : Res α) :
    (Res.prepend evs r).trace = evs ++ r.trace := by cases r <;> rfl

/-- State of a result with earlier events prepended. -/
lemma Res.state_prepend {α : Type} (evs : List GfxEvent) (r : Res α) :
    (Res.prepend evs r).state = r.state := by cases r <;> rfl

/-- The load loop never mutates the CubeMap state on faces after face 0 (only
the face-0 `reset` call mutates it). -/
lemma loadLoop_tail_state (env : LoadEnv) (type : TextureType) (pfx ext : String)
    (faces : List Nat) (cur : Int) (s : CubeMapState) (hfaces : 0 ∉ faces) :
    (loadLoop env type pfx ext faces cur s).state = s := by
  induction faces with
  | nil => rfl
  | cons f rest ih =>
    have hf0 : ¬ (f = 0) := fun h => hfaces (h ▸ List.mem_cons_self f rest)
    have hrest : 0 ∉ rest := fun h => hfaces (List.mem_cons_of_mem _ h)
    rw [loadLoop]
    cases himg : env.image (loadFilename type pfx ext f) with
    | none => simp [Res.state]
    | some img =>
      simp only []
      by_cases hsq : img.width = img.height
      · simp only [if_pos hsq, if_neg hf0]
        by_cases hw : img.width = cur
        · simp only [if_pos hw, Res.state_prepend]
          exact ih hrest
        · simp [if_neg hw, Res.state]
      · simp [if_neg hsq, Res.state]

/-- Upload soundness of the load loop past face 0: a face is uploaded only if
its image decoded to a square of the carried common edge length — a mismatched
or non-square face dies on its assertion before that face's upload. -/
lemma loadLoop_tail_upload (env : LoadEnv) (type : TextureType) (pfx ext : String)
    (faces : List Nat) (cur : Int) (s : CubeMapState) (hfaces : 0 ∉ faces) (j : Nat)
    (hj : GfxEvent.uploadEv j ∈ (loadLoop env type pfx ext faces cur s).trace) :
    env.image (loadFilename type pfx ext j) = some ⟨cur, cur⟩ := by
  induction faces with
  | nil => simp [loadLoop, Res.trace] at hj
  | cons f rest ih =>
    have hf0 : ¬ (f = 0) := fun h => hfaces (h ▸ List.mem_cons_self f rest)
    have hrest : 0 ∉ rest := fun h => hfaces (List.mem_cons_of_mem _ h)
    rw [loadLoop] at hj
    cases himg : env.image (loadFilename type pfx ext f) with
    | none => rw [himg] at hj; simp [Res.trace] at hj
    | some img =>
      rw [himg] at hj
      simp only [] at hj
      by_cases hsq : img.width = img.height
      · rw [if_pos hsq, if_neg hf0] at hj
        by_cases hw : img.width = cur
        · rw [if_pos hw, Res.trace_prepend] at hj
          simp only [List.cons_append, List.nil_append, List.mem_cons] at hj
          rcases hj with h | h | h
          · exact absurd h (by simp)
          · have hjf : j = f := by simpa using h
            subst hjf
            have himg2 : img = ⟨cur, cur⟩ := by
              cases img
              simp_all
            rw [himg2] at himg
            exact himg
          · exact ih hrest h
        · rw [if_neg hw] at hj; simp [Res.trace] at hj
      · rw [if_neg hsq] at hj; simp [Res.trace] at hj

/-- Recreating textures, framebuffer and attachments preserves `imageSize_`. -/
lemma recreated_imageSize (s : CubeMapState) :
    (((s.recreateTexture).recreateFramebuffer).attachFramebufferRenderbuffer).imageSize
      = s.imageSize := by
  cases hc : s.flags.colorTexture <;> cases hd : s.flags.depthTexture <;>
    simp [CubeMapState.recreateTexture, CubeMapState.recreateFramebuffer,
      CubeMapState.attachFramebufferRenderbuffer, hc, hd]

/-- C6: when the first face decodes to a square of edge `T` different from the
current image size, `loadTexture` performs the implicit `reset(T)` BEFORE any
face upload (the trace starts read-face-0, reset-to-T, upload-face-0), the
target's image size becomes `T` (and stays `T` whatever happens on the later
faces), and any face that gets uploaded at all decoded to a square image of
edge exactly `T` — a non-square or differently-sized face dies on its
assertion before that face's upload. -/
theorem C6_load_resizes_before_upload (s : CubeMapState) (env : LoadEnv) (type : TextureType)
    (pfx ext : String) (t : Texture) (T : Int)
    (hflag : flagForType s.flags type = true) (htex : s.texture type = some t)
    (himp : env.importerAvailable = true)
    (h0 : env.image (loadFilename type pfx ext 0) = some ⟨T, T⟩)
    (hT : 0 < T) (hne : T ≠ s.imageSize) :
    (∃ rest : List GfxEvent,
      (s.loadTexture env type pfx ext).trace =
        GfxEvent.readFileEv (loadFilename type pfx ext 0) :: GfxEvent.resetEv T ::
          GfxEvent.uploadEv 0 :: rest) ∧
    (s.loadTexture env type pfx ext).state.imageSize = T ∧
    (∀ j : Nat, GfxEvent.uploadEv j ∈ (s.loadTexture env type pfx ext).trace →
      env.image (loadFilename type pfx ext j) = some ⟨T, T⟩) := by
  have hne' : ¬ (s.imageSize = T) := fun h => hne h.symm
  have hstep : loadLoop env type pfx ext [0, 1, 2, 3, 4, 5] 0 s =
      Res.prepend [GfxEvent.readFileEv (loadFilename type pfx ext 0), GfxEvent.resetEv T,
        GfxEvent.uploadEv 0]
        (loadLoop env type pfx ext [1, 2, 3, 4, 5] T
          (((({ s with imageSize := T } : CubeMapState).recreateTexture).recreateFramebuffer).attachFramebufferRenderbuffer)) := by
    rw [loadLoop, h0]
    simp only [CubeMapState.reset, hne', hT, if_pos, if_neg, ite_true, ite_false]
    simp [hT, hne', Res.prepend]
  set s' : CubeMapState :=
    (((({ s with imageSize := T } : CubeMapState).recreateTexture).recreateFramebuffer).attachFramebufferRenderbuffer) with hsd
  have hs'size : s'.imageSize = T := by
    rw [hsd, recreated_imageSize]
  have htail0 : (0 : Nat) ∉ ([1, 2, 3, 4, 5] : List Nat) := by decide
  rcases hR : loadLoop env type pfx ext [1, 2, 3, 4, 5] T s' with ⟨v, st, tr⟩ | ⟨m, st, tr⟩
  · have hst : st = s' := by
      have h := loadLoop_tail_state env type pfx ext [1, 2, 3, 4, 5] T s' htail0
      rw [hR] at h
      exact h
    by_cases hm : (st.flags.buildMipmap && st.flags.colorTexture) = true
    · have hload : s.loadTexture env type pfx ext =
          Res.ok v st
            ((GfxEvent.readFileEv (loadFilename type pfx ext 0) :: GfxEvent.resetEv T ::
              GfxEvent.uploadEv 0 :: tr) ++ [GfxEvent.mipmapEv type]) := by
        simp [CubeMapState.loadTexture, hflag, himp, htex, hstep, hR, Res.prepend, hm]
      refine ⟨⟨tr ++ [GfxEvent.mipmapEv type], ?_⟩, ?_, ?_⟩
      · rw [hload]; simp [Res.trace]
      · rw [hload]; simp [Res.state, hst, hs'size]
      · intro j hj
        rw [hload] at hj
        simp only [Res.trace, List.cons_append, List.nil_append, List.mem_cons,
          List.mem_append, List.mem_singleton] at hj
        rcases hj with h | h | h | h
        · exact absurd h (by simp)
        · exact absurd h (by simp)
        · have hj0 : j = 0 := by simpa using h
          subst hj0
          exact h0
        · rcases h with h | h
          · refine loadLoop_tail_upload env type pfx ext [1, 2, 3, 4, 5] T s' htail0 j ?_
            rw [hR]
            exact h
          · exact absurd h (by simp)
    · have hload : s.loadTexture env type pfx ext =
          Res.ok v st
            (GfxEvent.readFileEv (loadFilename type pfx ext 0) :: GfxEvent.resetEv T ::
              GfxEvent.uploadEv 0 :: tr) := by
        simp [CubeMapState.loadTexture, hflag, himp, htex, hstep, hR, Res.prepend, hm]
      refine ⟨⟨tr, ?_⟩, ?_, ?_⟩
      · rw [hload]; rfl
      · rw [hload]; simp [Res.state, hst, hs'size]
      · intro j hj
        rw [hload] at hj
        simp only [Res.trace, List.mem_cons] at hj
        rcases hj with h | h | h | h
        · exact absurd h (by simp)
        · exact absurd h (by simp)
        · have hj0 : j = 0 := by simpa using h
          subst hj0
          exact h0
        · refine loadLoop_tail_upload env type pfx ext [1, 2, 3, 4, 5] T s' htail0 j ?_
          rw [hR]
          exact h
  · have hst : st = s' := by
      have h := loadLoop_tail_state env type pfx ext [1, 2, 3, 4, 5] T s' htail0
      rw [hR] at h
      exact h
    have hload : s.loadTexture env type pfx ext =
        Res.fatal m st
          (GfxEvent.readFileEv (loadFilename type pfx ext 0) :: GfxEvent.resetEv T ::
            GfxEvent.uploadEv 0 :: tr) := by
      simp [CubeMapState.loadTexture, hflag, himp, htex, hstep, hR, Res.prepend]
    refine ⟨⟨tr, ?_⟩, ?_, ?_⟩
    · rw [hload]; rfl
    · rw [hload]; simp [Res.state, hst, hs'size]
    · intro j hj
      rw [hload] at hj
      simp only [Res.trace, List.mem_cons] at hj
      rcases hj with h | h | h | h
      · exact absurd h (by simp)
      · exact absurd h (by simp)
      · have hj0 : j = 0 := by simpa using h
        subst hj0
        exact h0
      · refine loadLoop_tail_upload env type pfx ext [1, 2, 3, 4, 5] T s' htail0 j ?_
        rw [hR]
        exact h

/-- C6 witness: loading the color texture of the concrete size-4 CubeMap from
8×8 images (T = 8 differs from the current size 4). -/
theorem C6_witness :
    (∃ rest : List GfxEvent,
      (cmap4.loadTexture loadEnvAll8 TextureType.Color "p" "png").trace =
        GfxEvent.readFileEv (loadFilename TextureType.Color "p" "png" 0) :: GfxEvent.resetEv 8 ::
          GfxEvent.uploadEv 0 :: rest) ∧
    (cmap4.loadTexture loadEnvAll8 TextureType.Color "p" "png").state.imageSize = 8 ∧
    (∀ j : Nat, GfxEvent.uploadEv j ∈ (cmap4.loadTexture loadEnvAll8 TextureType.Color "p" "png").trace →
      loadEnvAll8.image (loadFilename TextureType.Color "p" "png" j) = some ⟨8, 8⟩) :=
  C6_load_resizes_before_upload cmap4 loadEnvAll8 TextureType.Color "p" "png" ⟨3, 4⟩ 8
    (by decide) (by decide) rfl rfl (by decide) (by decide)

/-- Load environment whose importer loads and where every file decodes to a
4×4 image. -/
def loadEnvAll4 : LoadEnv := ⟨true, fun _ => some ⟨4, 4⟩⟩

/-- C7: the claim is the code's own stated intent ("Color texture ONLY, NOT
for depth") but the code calls `generateMipmap()` through the `texture`
pointer captured for the LOADED type: loading the Depth texture on a CubeMap
with BuildMipmap and ColorTexture both enabled regenerates the DEPTH
texture's mip chain, not the color texture's. -/
theorem C7_mipmap_regeneration_target :
    GfxEvent.mipmapEv TextureType.Depth ∈
      (cmap4.loadTexture loadEnvAll4 TextureType.Depth "p" "hdr").trace ∧
    GfxEvent.mipmapEv TextureType.Color ∉
      (cmap4.loadTexture loadEnvAll4 TextureType.Depth "p" "hdr").trace := by decide

/-- Fatal message of a result with earlier events prepended. -/
lemma Res.fatalMsg_prepend {α : Type} (evs : List GfxEvent) (r : Res α) :
    (Res.prepend evs r).fatalMsg = r.fatalMsg := by cases r <;> rfl

/-- The only assertion `reset` can die on is its illegal-image-size check. -/
lemma reset_fatalMsg (s : CubeMapState) (n : Int) (m : String) (st : CubeMapState)
    (tr : List GfxEvent) (h : s.reset n = Res.fatal m st tr) :
    m = "CubeMap::reset(): image size is illegal." := by
  unfold CubeMapState.reset at h
  split at h
  · cases h
  · split at h
    · cases h
    · cases h
      rfl

/-- Classification of the assertions the load loop can die on: failed decode,
non-square image, mismatched size, or (via the face-0 `reset`) illegal image
size.  In particular the loop never raises a capability-sanity-check
failure. -/
lemma loadLoop_fatalMsg (env : LoadEnv) (type : TextureType) (pfx ext : String)
    (faces : List Nat) (cur : Int) (s : CubeMapState) (m : String)
    (hm : (loadLoop env type pfx ext faces cur s).fatalMsg = some m) :
    m = "CORRADE_INTERNAL_ASSERT(imageData)" ∨
    m = " CubeMap::loadTexture(): each texture image must be a square." ∨
    m = " CubeMap::loadTexture(): texture images must have the same size." ∨
    m = "CubeMap::reset(): image size is illegal." := by
  induction faces generalizing cur s with
  | nil => simp [loadLoop, Res.fatalMsg] at hm
  | cons f rest ih =>
    rw [loadLoop] at hm
    cases himg : env.image (loadFilename type pfx ext f) with
    | none =>
      rw [himg] at hm
      simp [Res.fatalMsg] at hm
      exact Or.inl hm.symm
    | some img =>
      rw [himg] at hm
      simp only [] at hm
      by_cases hsq : img.width = img.height
      · rw [if_pos hsq] at hm
        by_cases hf : f = 0
        · rw [if_pos hf] at hm
          cases hres : s.reset img.width with
          | ok v s2 tr =>
            rw [hres] at hm
            rw [Res.fatalMsg_prepend] at hm
            exact ih _ _ hm
          | fatal mm s2 tr =>
            rw [hres] at hm
            simp [Res.fatalMsg] at hm
            have hmm := reset_fatalMsg s img.width mm s2 tr hres
            subst hm
            exact Or.inr (Or.inr (Or.inr hmm))
        · rw [if_neg hf] at hm
          by_cases hw : img.width = cur
          · rw [if_pos hw, Res.fatalMsg_prepend] at hm
            exact ih _ _ hm
          · rw [if_neg hw] at hm
            simp [Res.fatalMsg] at hm
            exact Or.inr (Or.inr (Or.inl hm.symm))
      · rw [if_neg hsq] at hm
        simp [Res.fatalMsg] at hm
        exact Or.inr (Or.inl hm.symm)

/-- C8: calling `getTexture`, `saveTexture` or `loadTexture` for a texture
type whose capability flag was not set at construction dies on the
`textureTypeSanityCheck` precondition assertion (with no other effect), and
with the capability present the same call never fails that sanity check
(whatever else the environment makes it do). -/
theorem C8_capability_gating (s : CubeMapState) (type : TextureType) (envS : SaveEnv)
    (envL : LoadEnv) (pfx ext : String) :
    (flagForType s.flags type = false →
      s.getTexture type = Res.fatal (sanityMsg "CubeMap::getTexture():" type) s [] ∧
      s.saveTexture envS type pfx = Res.fatal (sanityMsg "CubeMap::saveTexture():" type) s [] ∧
      s.loadTexture envL type pfx ext =
        Res.fatal (sanityMsg "CubeMap::loadTexture():" type) s []) ∧
    (flagForType s.flags type = true →
      (s.getTexture type).fatalMsg ≠ some (sanityMsg "CubeMap::getTexture():" type) ∧
      (s.saveTexture envS type pfx).fatalMsg ≠ some (sanityMsg "CubeMap::saveTexture():" type) ∧
      (s.loadTexture envL type pfx ext).fatalMsg ≠
        some (sanityMsg "CubeMap::loadTexture():" type)) := by
  constructor
  · intro h
    refine ⟨?_, ?_, ?_⟩ <;>
      simp [CubeMapState.getTexture, CubeMapState.saveTexture, CubeMapState.loadTexture, h]
  · intro h
    refine ⟨?_, ?_, ?_⟩
    · cases htex : s.texture type with
      | some t => simp [CubeMapState.getTexture, h, htex, Res.fatalMsg]
      | none =>
        simp [CubeMapState.getTexture, h, htex, Res.fatalMsg]
        cases type <;> decide
    · by_cases hc : envS.converterAvailable = true
      · cases htex : s.texture type with
        | some t => simp [CubeMapState.saveTexture, h, hc, htex, saveLoop_eq, Res.fatalMsg]
        | none =>
          simp [CubeMapState.saveTexture, h, hc, htex, Res.fatalMsg]
          cases type <;> decide
      · simp only [Bool.not_eq_true] at hc
        simp [CubeMapState.saveTexture, h, hc, Res.fatalMsg]
    · by_cases hi : envL.importerAvailable = true
      · cases htex : s.texture type with
        | none =>
          simp [CubeMapState.loadTexture, h, hi, htex, Res.fatalMsg]
          cases type <;> decide
        | some t =>
          cases hLL : loadLoop envL type pfx ext [0, 1, 2, 3, 4, 5] 0 s with
          | ok v st tr =>
            simp only [CubeMapState.loadTexture, h, hi, htex, hLL]
            by_cases hmip : st.flags.buildMipmap = true ∧ st.flags.colorTexture = true
            · simp [Res.fatalMsg, hmip]
            · simp [Res.fatalMsg, hmip]
          | fatal m st tr =>
            have hmem := loadLoop_fatalMsg envL type pfx ext [0, 1, 2, 3, 4, 5] 0 s m
              (by rw [hLL]; rfl)
            simp only [CubeMapState.loadTexture, h, hi, htex, hLL]
            simp only [Res.fatalMsg, if_true, ite_true]
            rcases hmem with h1 | h1 | h1 | h1 <;> subst h1 <;> cases type <;> decide
      · simp only [Bool.not_eq_true] at hi
        simp [CubeMapState.loadTexture, h, hi, Res.fatalMsg]
        cases type <;> decide

/-- The state of a CubeMap constructed as `CubeMap(4, flagsColor)`: color-only
capability, 1 mip level. -/
def cmapColorOnly : CubeMapState := ⟨flagsColor, 4, some ⟨1, 4⟩, none, some 4, some 4⟩

/-- C8 witness: on a color-only CubeMap, accessing the Depth texture dies on
the sanity check while accessing the Color texture passes it. -/
theorem C8_witness :
    flagForType cmapColorOnly.flags TextureType.Depth = false ∧
    flagForType cmapColorOnly.flags TextureType.Color = true ∧
    cmapColorOnly.getTexture TextureType.Depth =
      Res.fatal (sanityMsg "CubeMap::getTexture():" TextureType.Depth) cmapColorOnly [] ∧
    (cmapColorOnly.getTexture TextureType.Color).fatalMsg ≠
      some (sanityMsg "CubeMap::getTexture():" TextureType.Color) :=
  ⟨by decide, by decide,
   ((C8_capability_gating cmapColorOnly TextureType.Depth saveEnvAll loadEnvAll8 "p"
      "png").1 (by decide)).1,
   ((C8_capability_gating cmapColorOnly TextureType.Color saveEnvAll loadEnvAll8 "p"
      "png").2 (by decide)).1⟩

/-- C9: under its preconditions (camera attached to the scene graph, viewport
equal to the square image size, complete framebuffer), `renderToTexture`
finishes without assertion, restores the camera's local transform to its
value at call entry (so repeated calls observe the same base orientation),
and snapshots the base orientation (`updateOriginalViewingMatrix`) exactly
once — as the very first command, before the face loop. -/
theorem C9_render_restores_camera (T : Type) (s : CubeMapState) (env : RenderEnv)
    (camera : CubeMapCamera T)
    (hins : camera.inSceneGraph = true)
    (hvw : camera.viewportW = s.imageSize) (hvh : camera.viewportH = s.imageSize)
    (hfb : env.framebufferComplete = true) :
    (s.renderToTexture env camera).fatalMsg = none ∧
    (s.renderToTexture env camera).camera.localTransform = camera.localTransform ∧
    (∃ rest : List GfxEvent,
      (s.renderToTexture env camera).trace = GfxEvent.snapshotEv :: rest ∧
      GfxEvent.snapshotEv ∉ rest) := by
  simp only [CubeMapState.renderToTexture, hins, hvw, hvh, if_true, ite_true, and_self]
  simp only [renderFaces, hfb, if_true, ite_true]
  simp only [CubeMapCamera.updateOriginalViewingMatrix, CubeMapCamera.switchToFace,
    CubeMapCamera.restoreTransformation]
  refine ⟨?_, ?_, ?_⟩
  · simp
  · simp
  · refine ⟨_, rfl, ?_⟩
    by_cases hm : (s.flags.buildMipmap && s.flags.colorTexture) = true <;>
      simp [hm, List.mem_append, List.mem_replicate]

/-- A concrete integer-transform camera attached to the scene graph with a
4×4 viewport, starting at local transform 7. -/
def cam7 : CubeMapCamera Int := ⟨7, 0, fun t i => t + 100 * Int.ofNat i + 1, 4, 4, true⟩

/-- A render environment with a complete framebuffer and two drawable
groups. -/
def renderEnv2 : RenderEnv := ⟨true, 2⟩

/-- C9 witness: rendering the concrete size-4 CubeMap with the concrete
camera meets the preconditions and restores the entry transform 7. -/
theorem C9_witness :
    cam7.inSceneGraph = true ∧ cam7.viewportW = cmap4.imageSize ∧
    renderEnv2.framebufferComplete = true ∧
    ((cmap4.renderToTexture renderEnv2 cam7).fatalMsg = none ∧
     (cmap4.renderToTexture renderEnv2 cam7).camera.localTransform = cam7.localTransform ∧
     (∃ rest : List GfxEvent,
       (cmap4.renderToTexture renderEnv2 cam7).trace = GfxEvent.snapshotEv :: rest ∧
       GfxEvent.snapshotEv ∉ rest)) :=
  ⟨rfl, rfl, rfl,
   C9_render_restores_camera Int cmap4 renderEnv2 cam7 rfl rfl rfl rfl⟩

end gfx

namespace metadata

/-- C10: `getFilePathForHandle` returns the mapped path when the handle is a
key of the map and the empty string (with a logged warning) when it is not;
consequently `getNavmeshPathByHandle` and
`getSemanticSceneDescriptorPathByHandle` return the empty string both when no
active dataset exists and when the handle is absent from the dataset's map,
and never modify the mediator's state. -/
theorem C10_lookup_failure_empty_string (h : String) (m : List (String × String))
    (msg : String) (mm : MetadataMediator) (v : String) :
    (m.lookup h = some v → MetadataMediator.getFilePathForHandle h m msg = (v, [])) ∧
    (m.lookup h = none → MetadataMediator.getFilePathForHandle h m msg =
      ("", [msg ++ " (getAsset) : Unable to find file path for " ++ h ++ ".  Aborting."])) ∧
    (mm.getNavmeshPathByHandle h).2.2 = mm ∧
    (mm.getSemanticSceneDescriptorPathByHandle h).2.2 = mm ∧
    (mm.getActiveDSAttribs = none →
      (mm.getNavmeshPathByHandle h).1 = "" ∧
      (mm.getSemanticSceneDescriptorPathByHandle h).1 = "") ∧
    (∀ d : SceneDatasetAttributes, mm.getActiveDSAttribs = some d →
      d.navmeshMap.lookup h = none → (mm.getNavmeshPathByHandle h).1 = "") ∧
    (∀ d : SceneDatasetAttributes, mm.getActiveDSAttribs = some d →
      d.semanticSceneDescrMap.lookup h = none →
      (mm.getSemanticSceneDescriptorPathByHandle h).1 = "") := by
  refine ⟨?_, ?_, ?_, ?_, ?_, ?_, ?_⟩
  · intro hl
    simp [MetadataMediator.getFilePathForHandle, hl]
  · intro hl
    simp [MetadataMediator.getFilePathForHandle, hl]
  · cases hd : mm.getActiveDSAttribs <;>
      simp [MetadataMediator.getNavmeshPathByHandle, hd]
  · cases hd : mm.getActiveDSAttribs <;>
      simp [MetadataMediator.getSemanticSceneDescriptorPathByHandle, hd]
  · intro hd
    simp [MetadataMediator.getNavmeshPathByHandle,
      MetadataMediator.getSemanticSceneDescriptorPathByHandle, hd]
  · intro d hd hl
    simp [MetadataMediator.getNavmeshPathByHandle, hd,
      MetadataMediator.getFilePathForHandle, hl]
  · intro d hd hl
    simp [MetadataMediator.getSemanticSceneDescriptorPathByHandle, hd,
      MetadataMediator.getFilePathForHandle, hl]

/-- A concrete mediator whose active dataset "ds" has one navmesh entry and
no semantic scene descriptor entries. -/
def mmSample : MetadataMediator :=
  ⟨"ds", [("ds", ⟨[("navA", "/path/navA.navmesh")], []⟩)]⟩

/-- A concrete mediator whose active dataset name resolves to no dataset. -/
def mmNoActive : MetadataMediator := ⟨"missing", []⟩

/-- C10 witness: present and absent handles on concrete maps and mediators. -/
theorem C10_witness :
    MetadataMediator.getFilePathForHandle "navA" [("navA", "/path/navA.navmesh")] "caller" =
      ("/path/navA.navmesh", []) ∧
    (MetadataMediator.getFilePathForHandle "navB" [("navA", "/path/navA.navmesh")] "caller").1 =
      "" ∧
    (mmNoActive.getNavmeshPathByHandle "navA").1 = "" ∧
    (mmSample.getNavmeshPathByHandle "navB").1 = "" ∧
    (mmSample.getNavmeshPathByHandle "navB").2.2 = mmSample :=
  ⟨(C10_lookup_failure_empty_string "navA" [("navA", "/path/navA.navmesh")] "caller"
      mmSample "/path/navA.navmesh").1 rfl,
   by rw [(C10_lookup_failure_empty_string "navB" [("navA", "/path/navA.navmesh")] "caller"
      mmSample "").2.1 rfl],
   ((C10_lookup_failure_empty_string "navA" [] "x" mmNoActive "").2.2.2.2.1 rfl).1,
   (C10_lookup_failure_empty_string "navB" [] "x" mmSample "").2.2.2.2.2.1
     ⟨[("navA", "/path/navA.navmesh")], []⟩ rfl rfl,
   (C10_lookup_failure_empty_string "navB" [] "x" mmSample "").2.2.1⟩

end metadata
end esp
